import Mathlib

/-!
Verification development for the wraith telemetry daemon.

The definitions below are a shallow embedding of the Rust sources:
wraith-common/src/lib.rs, wraith-daemon/src/buffer.rs,
wraith-daemon/src/writer.rs, wraith-daemon/src/monitor.rs,
wraith-daemon/src/socket.rs, wraith-daemon/src/config.rs and
wraith-daemon/src/main.rs. Effects are made explicit: the OS clock,
process-table lookups, UUID generation, the filesystem and the network
appear as parameters or as explicit state, and fallible operations
return Option or an explicit result value.
-/

namespace Wraith

/-! Data model, from wraith-common/src/lib.rs. -/

/-- Severity of an event (enum Level, lib.rs lines 13-22). -/
inductive Level where
  | debug
  | info
  | warning
  | error
  | critical
  | fatal
deriving DecidableEq, Repr

/-- Level::is_urgent (lib.rs lines 26-28): true only for Critical and Fatal. -/
def Level.is_urgent : Level → Bool
  | .critical => true
  | .fatal => true
  | _ => false

/-- Level::as_str (lib.rs lines 31-40): uppercase wire form of the level. -/
def Level.as_str : Level → String
  | .debug => "DEBUG"
  | .info => "INFO"
  | .warning => "WARNING"
  | .error => "ERROR"
  | .critical => "CRITICAL"
  | .fatal => "FATAL"

/-- EventContext (lib.rs lines 44-61): environment descriptor carried by every event. -/
structure EventContext where
  installation_id : String
  tool_version : String
  python_version : String
  os : String
  os_version : Option String
deriving DecidableEq, Repr

/-- EventType (lib.rs lines 64-113): closed set of event variants, each with its fields. -/
inductive EventType where
  | toolInvoked (tool : String) (command : String)
  | toolSucceeded (tool : String) (command : String) (duration_ms : Nat)
  | toolFailed (tool : String) (command : String) (error_type : String) (duration_ms : Nat)
  | exceptionUnhandled (tool : String) (exception_type : String) (traceback : Option String)
  | validationFailed (tool : String) (validation_type : String) (details : Option String)
  | daemonStarted (parent_pid : Nat)
  | daemonStopping (reason : String)
deriving DecidableEq, Repr

/-- Event (lib.rs lines 171-188). The chrono timestamp is modelled as a Nat instant. -/
structure Event where
  id : String
  timestamp : Nat
  level : Level
  event : EventType
  context : EventContext
deriving DecidableEq, Repr

/-- Event::new (lib.rs lines 192-200); the ambient UUID generator and clock are
explicit arguments. -/
def Event.new (freshId : String) (now : Nat) (level : Level) (event : EventType)
    (context : EventContext) : Event :=
  { id := freshId, timestamp := now, level := level, event := event, context := context }

/-- Event::is_urgent (lib.rs lines 203-205). -/
def Event.is_urgent (e : Event) : Bool :=
  e.level.is_urgent

/-- ClientMessage (lib.rs lines 209-220): the wire input, an Event minus id and timestamp. -/
structure ClientMessage where
  level : Level
  event : EventType
  context : EventContext
deriving DecidableEq, Repr

/-- ClientMessage::into_event (lib.rs lines 224-226): promote to a full Event,
assigning a fresh id and the admission timestamp. -/
def ClientMessage.into_event (m : ClientMessage) (freshId : String) (now : Nat) : Event :=
  Event.new freshId now m.level m.event m.context

/-! Configuration constants, from wraith-daemon/src/config.rs. -/

/-- config::BUFFER_MAX_EVENTS (config.rs line 19). -/
def BUFFER_MAX_EVENTS : Nat := 25

/-- config::FLUSH_INTERVAL_SECS (config.rs line 22). -/
def FLUSH_INTERVAL_SECS : Nat := 30

/-- config::PARENT_CHECK_INTERVAL_SECS (config.rs line 25). -/
def PARENT_CHECK_INTERVAL_SECS : Nat := 5

/-- config::IDLE_TIMEOUT_SECS (config.rs line 28). -/
def IDLE_TIMEOUT_SECS : Nat := 300

/-! Event buffer, from wraith-daemon/src/buffer.rs. The writer capability is
modelled as a state-passing function returning the new writer state and a
success flag; flush additionally records the batches handed to the writer, so
that writer invocations are observable in theorems. -/

/-- EventBuffer (buffer.rs lines 32-41), minus the writer handle, which the
flush model receives explicitly. -/
structure EventBuffer where
  events : List Event
  max_events : Nat
deriving DecidableEq, Repr

/-- EventBuffer::new (buffer.rs lines 45-51): empty buffer with the configured
threshold. -/
def EventBuffer.new : EventBuffer :=
  { events := [], max_events := BUFFER_MAX_EVENTS }

/-- EventBuffer::push (buffer.rs lines 55-60): append the event, report whether
an immediate flush is due (urgent level, or length at threshold). -/
def EventBuffer.push (b : EventBuffer) (e : Event) : EventBuffer × Bool :=
  let urgent := e.is_urgent
  let events := b.events ++ [e]
  ({ b with events := events }, urgent || decide (b.max_events ≤ events.length))

/-- EventBuffer::flush (buffer.rs lines 63-84). The writer is a state-passing
function; the returned list records each batch passed to write_events together
with the result, so the number of writer invocations is visible. On failure the
taken batch is put back; the function is total, mirroring the Rust return type
of unit: no error reaches the caller. -/
def EventBuffer.flush {σ : Type} (b : EventBuffer) (write : σ → List Event → σ × Bool)
    (s : σ) : EventBuffer × σ × List (List Event × Bool) :=
  if b.events.isEmpty then
    (b, s, [])
  else
    let events := b.events
    let taken : EventBuffer := { b with events := [] }
    let (s, ok) := write s events
    if ok then
      (taken, s, [(events, true)])
    else
      ({ taken with events := events }, s, [(events, false)])

/-- Fold EventBuffer::push over a list of events, recording each returned flag. -/
def EventBuffer.pushSeq (b : EventBuffer) : List Event → EventBuffer × List Bool
  | [] => (b, [])
  | e :: es =>
    let (b1, flag) := b.push e
    let (b2, flags) := b1.pushSeq es
    (b2, flag :: flags)

/-- A sample context used for concrete scenarios. -/
def sampleContext : EventContext :=
  { installation_id := "test-uuid"
    tool_version := "0.1.0"
    python_version := "3.11.0"
    os := "linux"
    os_version := none }

/-- A non-urgent sample event. -/
def sampleInfoEvent : Event :=
  Event.new "id-info" 0 .info (.toolInvoked "migrateiq" "scan") sampleContext

/-- An urgent sample event. -/
def sampleCriticalEvent : Event :=
  Event.new "id-crit" 0 .critical (.exceptionUnhandled "migrateiq" "ValueError" none) sampleContext

end Wraith

namespace Wraith

/-- Buffer after a list of pushes, discarding the flags. -/
def EventBuffer.pushAll (b : EventBuffer) (es : List Event) : EventBuffer :=
  (b.pushSeq es).1

theorem pushAll_events (b : EventBuffer) (es : List Event) :
    (b.pushAll es).events = b.events ++ es := by
  induction es generalizing b with
  | nil => simp [EventBuffer.pushAll, EventBuffer.pushSeq]
  | cons e es ih =>
    simp [EventBuffer.pushAll, EventBuffer.pushSeq, EventBuffer.push] at *
    rw [ih]
    simp

theorem pushAll_max (b : EventBuffer) (es : List Event) :
    (b.pushAll es).max_events = b.max_events := by
  induction es generalizing b with
  | nil => rfl
  | cons e es ih =>
    simp [EventBuffer.pushAll, EventBuffer.pushSeq, EventBuffer.push] at *
    rw [ih]

/-- C2: EventBuffer::push always appends the event at the end (nothing is
dropped) and returns true exactly when the level is urgent (Critical or Fatal)
or the post-push length reaches the threshold; with the configured threshold
25, a run of 25 non-urgent pushes into an empty buffer reports true on the
25th push only, and a single Critical push into an empty buffer reports
true. -/
theorem push_appends_and_signals_urgent_or_threshold (b : EventBuffer) (e : Event) :
    (b.push e).1.events = b.events ++ [e] ∧
    (b.push e).2 = (e.is_urgent || decide (b.max_events ≤ b.events.length + 1)) ∧
    (EventBuffer.new.pushSeq (List.replicate 25 sampleInfoEvent)).2 =
      List.replicate 24 false ++ [true] ∧
    (EventBuffer.new.push sampleCriticalEvent).2 = true := by
  refine ⟨rfl, ?_, by decide, by decide⟩
  simp [EventBuffer.push]

/-- C9: flushing an empty buffer performs zero writer invocations and leaves
the buffer unchanged. -/
theorem flush_empty_no_writer_calls {σ : Type} (b : EventBuffer)
    (write : σ → List Event → σ × Bool) (s : σ) (h : b.events = []) :
    b.flush write s = (b, s, []) := by
  simp [EventBuffer.flush, h]

/-- Witness for flush_empty_no_writer_calls at the empty buffer and a writer
that always succeeds without changing state. -/
theorem flush_empty_no_writer_calls_witness :
    EventBuffer.new.flush (fun (s : Unit) _ => (s, true)) () = (EventBuffer.new, (), []) :=
  flush_empty_no_writer_calls EventBuffer.new (fun s _ => (s, true)) () rfl

/-- C1: a flush whose write fails takes the whole batch, restores it on
failure (the buffer afterwards holds exactly the failed batch, hence at least
every event of it), propagates no error (flush returns normally), and after
further pushes a subsequent successful flush hands the writer every event
pushed so far that has not been successfully written: the old batch followed
by the newly pushed events, leaving the buffer empty. -/
theorem flush_failure_restores_batch_then_success_writes_all {σ : Type}
    (b : EventBuffer) (write1 write2 : σ → List Event → σ × Bool) (s : σ)
    (es : List Event)
    (hne : b.events ≠ [])
    (hfail : (write1 s b.events).2 = false)
    (hok : ∀ t batch, (write2 t batch).2 = true) :
    (b.flush write1 s).1.events = b.events ∧
    (b.flush write1 s).2.2 = [(b.events, false)] ∧
    (((b.flush write1 s).1.pushAll es).flush write2 (b.flush write1 s).2.1).2.2 =
      [(b.events ++ es, true)] ∧
    (((b.flush write1 s).1.pushAll es).flush write2 (b.flush write1 s).2.1).1.events = [] := by
  have hbe : b.events.isEmpty = false := by
    cases hb : b.events with
    | nil => exact absurd hb hne
    | cons x xs => simp
  have h2 : write1 s b.events = ((write1 s b.events).1, false) := by
    rw [← hfail]
  set s1 := (write1 s b.events).1 with hs1
  have hflush : b.flush write1 s = (b, s1, [(b.events, false)]) := by
    simp [EventBuffer.flush, hbe, h2]
  refine ⟨by rw [hflush], by rw [hflush], ?_, ?_⟩ <;>
  · rw [hflush]
    have hev : (b.pushAll es).events = b.events ++ es := pushAll_events b es
    have hne2 : ((b.pushAll es).events).isEmpty = false := by
      cases hb : b.events with
      | nil => exact absurd hb hne
      | cons x xs => rw [hev, hb]; simp
    simp [EventBuffer.flush, hne2, hev, hne, hok]

/-- Witness for flush_failure_restores_batch_then_success_writes_all: a
one-event buffer, a writer that always fails, then one more push and a writer
that always succeeds. -/
theorem flush_failure_restores_batch_witness :
    ((EventBuffer.mk [sampleInfoEvent] 25).flush
        (fun (s : Unit) _ => (s, false)) ()).1.events =
      (EventBuffer.mk [sampleInfoEvent] 25).events ∧
    ((((EventBuffer.mk [sampleInfoEvent] 25).flush
          (fun (s : Unit) _ => (s, false)) ()).1.pushAll [sampleCriticalEvent]).flush
        (fun (s : Unit) _ => (s, true))
        ((EventBuffer.mk [sampleInfoEvent] 25).flush
          (fun (s : Unit) _ => (s, false)) ()).2.1).2.2 =
      [((EventBuffer.mk [sampleInfoEvent] 25).events ++ [sampleCriticalEvent], true)] := by
  have h := flush_failure_restores_batch_then_success_writes_all
    (EventBuffer.mk [sampleInfoEvent] 25)
    (fun (s : Unit) _ => (s, false)) (fun (s : Unit) _ => (s, true)) ()
    [sampleCriticalEvent] (by decide) rfl (fun _ _ => rfl)
  exact ⟨h.1, h.2.2.1⟩

end Wraith

namespace Wraith

/-! Parent monitor, from wraith-daemon/src/monitor.rs. The sysinfo process
lookup is modelled as a Bool oracle per poll, and tokio Instants as Nat
instants measured in seconds; config::get_idle_timeout is IDLE_TIMEOUT_SECS
seconds. -/

/-- ParentMonitor state (monitor.rs lines 15-27), minus the sysinfo handle,
which the poll model replaces by an aliveness oracle. -/
structure ParentMonitor where
  parent_pid : Nat
  last_parent_alive : Nat
  parent_exited : Bool
deriving DecidableEq, Repr

/-- ParentMonitor::new (monitor.rs lines 31-38): created at the current
instant, parent considered alive. -/
def ParentMonitor.new (parent_pid : Nat) (now : Nat) : ParentMonitor :=
  { parent_pid := parent_pid, last_parent_alive := now, parent_exited := false }

/-- Result of one should_shutdown poll: the updated monitor, the returned
Bool, and whether the exit transition was logged during this poll. -/
structure ShutdownCheck where
  monitor : ParentMonitor
  shutdown : Bool
  logged_transition : Bool
deriving DecidableEq, Repr

/-- ParentMonitor::should_shutdown (monitor.rs lines 48-74). The process-table
check is the alive argument; now is the current instant in seconds. If the
parent is alive, reset the last-seen instant and the exited flag and return
false. Otherwise log the transition exactly when the exited flag was not yet
set, set the flag, and return whether the elapsed time since last-seen-alive
has reached the idle timeout. -/
def ParentMonitor.should_shutdown (m : ParentMonitor) (alive : Bool) (now : Nat) :
    ShutdownCheck :=
  if alive then
    { monitor := { m with last_parent_alive := now, parent_exited := false }
      shutdown := false
      logged_transition := false }
  else
    let logged := !m.parent_exited
    let m := { m with parent_exited := true }
    let elapsed := now - m.last_parent_alive
    if IDLE_TIMEOUT_SECS ≤ elapsed then
      { monitor := m, shutdown := true, logged_transition := logged }
    else
      { monitor := m, shutdown := false, logged_transition := logged }

/-- Fold should_shutdown over a poll sequence of (alive, instant) pairs,
recording each returned Bool and each log emission. -/
def ParentMonitor.pollSeq (m : ParentMonitor) :
    List (Bool × Nat) → ParentMonitor × List (Bool × Bool)
  | [] => (m, [])
  | (alive, now) :: rest =>
    let r := m.should_shutdown alive now
    let (mfinal, out) := r.monitor.pollSeq rest
    (mfinal, (r.shutdown, r.logged_transition) :: out)

/-- C5: should_shutdown returns false on every poll with the parent alive,
resetting the last-seen instant and the exited flag; once the parent is
absent it returns false while the elapsed time since last-seen-alive is below
the 300 second idle timeout and true exactly when that elapsed time reaches
it, logging the transition only on entry into the counting state. With
polls every 5 seconds and a parent alive for three cycles then absent, the
first four calls return false, the transition is logged exactly on the
fourth, and the first true appears once elapsed reaches the timeout. -/
theorem should_shutdown_idle_countdown (m : ParentMonitor) (now : Nat) :
    (m.should_shutdown true now =
      { monitor := { parent_pid := m.parent_pid, last_parent_alive := now,
                     parent_exited := false }
        shutdown := false
        logged_transition := false }) ∧
    (m.should_shutdown false now =
      { monitor := { parent_pid := m.parent_pid,
                     last_parent_alive := m.last_parent_alive,
                     parent_exited := true }
        shutdown := decide (IDLE_TIMEOUT_SECS ≤ now - m.last_parent_alive)
        logged_transition := !m.parent_exited }) ∧
    ((ParentMonitor.new 77 0).pollSeq
        [(true, 5), (true, 10), (true, 15), (false, 20), (false, 314), (false, 315)]).2 =
      [(false, false), (false, false), (false, false),
       (false, true), (false, false), (true, false)] := by
  refine ⟨?_, ?_, by decide⟩
  · simp [ParentMonitor.should_shutdown]
  · simp only [ParentMonitor.should_shutdown, Bool.false_eq_true, if_false]
    by_cases h : IDLE_TIMEOUT_SECS ≤ now - m.last_parent_alive <;>
      simp [h]

end Wraith

namespace Wraith

/-! Writer implementations, from wraith-daemon/src/writer.rs. The filesystem
behind FileWriter is modelled as the list of events already appended to the
log file, together with an IO oracle saying after how many appended events an
IO error strikes (covering directory creation, open, write and flush
failures; none means the call fully succeeds). The network behind HttpWriter
is an oracle from the batch to the response outcome. -/

/-- Outcome of a write_events call (Result of unit in the source). -/
inductive WriteResult where
  | ok
  | err (msg : String)
deriving DecidableEq, Repr

/-- FileWriter::write_events (writer.rs lines 40-59): append each event of
the batch, in order, as one line to the file. The oracle fail_after models an
IO error: some k fails after k events were appended (k = 0 covers ensure_dir
and open failures); none appends the whole batch and succeeds. -/
def FileWriter.write_events (fail_after : Option Nat) (contents : List Event)
    (events : List Event) : WriteResult × List Event :=
  match fail_after with
  | none => (.ok, contents ++ events)
  | some k => (.err "io error", contents ++ events.take k)

/-- HttpWriter::write_events (writer.rs lines 81-109): empty batches return
success without touching the network; otherwise the outcome is the response
of the configured endpoint, a failure for any non-success status or transport
error. -/
def HttpWriter.write_events (respond : List Event → WriteResult)
    (events : List Event) : WriteResult :=
  if events.isEmpty then .ok else respond events

/-- FallbackWriter::write_events (writer.rs lines 129-141): when an HTTP
writer is configured try it first and on any HTTP failure fall back to the
file writer, returning the file writer result; with no HTTP writer, always
use the file writer. The returned list is the file contents after the
call. -/
def FallbackWriter.write_events (http : Option (List Event → WriteResult))
    (fail_after : Option Nat) (contents : List Event) (events : List Event) :
    WriteResult × List Event :=
  match http with
  | some respond =>
    match HttpWriter.write_events respond events with
    | .ok => (.ok, contents)
    | .err _ => FileWriter.write_events fail_after contents events
  | none => FileWriter.write_events fail_after contents events

/-- C3: FallbackWriter::write_events attempts HTTP first when configured and
on any HTTP failure returns the file writer result; with no HTTP writer it
always uses the file writer; and with an always-failing HTTP writer and a
succeeding file writer, a two-event batch returns success with both events
appended to the file in order. -/
theorem fallback_writer_degrades_to_file (respond : List Event → WriteResult)
    (fail_after : Option Nat) (contents : List Event) (events : List Event)
    (e1 e2 : Event) (msg : String)
    (hfail : HttpWriter.write_events respond events = .err msg) :
    (FallbackWriter.write_events (some respond) fail_after contents events =
      FileWriter.write_events fail_after contents events) ∧
    (FallbackWriter.write_events none fail_after contents events =
      FileWriter.write_events fail_after contents events) ∧
    (FallbackWriter.write_events (some fun _ => .err "connection refused")
        none contents [e1, e2] = (.ok, contents ++ [e1, e2])) := by
  refine ⟨?_, rfl, rfl⟩
  simp [FallbackWriter.write_events, hfail]

/-- Witness for fallback_writer_degrades_to_file with an HTTP endpoint that
always refuses, an empty file and the two sample events. -/
theorem fallback_writer_degrades_to_file_witness :
    (FallbackWriter.write_events (some fun _ => .err "connection refused")
        none [] [sampleInfoEvent, sampleCriticalEvent] =
      FileWriter.write_events none [] [sampleInfoEvent, sampleCriticalEvent]) ∧
    (FallbackWriter.write_events (some fun _ => .err "connection refused")
        none [] [sampleInfoEvent, sampleCriticalEvent] =
      (.ok, [] ++ [sampleInfoEvent, sampleCriticalEvent])) := by
  have h := fallback_writer_degrades_to_file (fun _ => .err "connection refused")
    none [] [sampleInfoEvent, sampleCriticalEvent]
    sampleInfoEvent sampleCriticalEvent "connection refused" rfl
  exact ⟨h.1, h.2.2⟩

end Wraith

namespace Wraith

/-! Environment-driven configuration, from wraith-daemon/src/config.rs, and
the writer construction performed by main, from wraith-daemon/src/main.rs.
The process environment is modelled as the two variables the code reads. -/

/-- config::INFRAIQ_DIR (config.rs line 7). -/
def INFRAIQ_DIR : String := ".infraiq"

/-- config::SOCKET_NAME (config.rs line 10). -/
def SOCKET_NAME : String := "wraith.sock"

/-- config::EVENTS_LOG (config.rs line 13). -/
def EVENTS_LOG : String := "events.log"

/-- config::INSTALL_ID_FILE (config.rs line 16). -/
def INSTALL_ID_FILE : String := "installation_id"

/-- config::DEFAULT_SERVER_ENDPOINT (config.rs line 31). -/
def DEFAULT_SERVER_ENDPOINT : String := "https://telemetry.autonops.io/events"

/-- The two environment variables config.rs reads. -/
structure Env where
  infraiq_telemetry : Option String
  wraith_server_url : Option String
deriving DecidableEq, Repr

/-- Model of Rust str::to_lowercase restricted to ASCII letters, which covers
every string the configuration code compares against. -/
def rustToLowercase (s : String) : String :=
  String.mk (s.data.map fun c =>
    if 65 ≤ c.toNat ∧ c.toNat ≤ 90 then Char.ofNat (c.toNat + 32) else c)

/-- config::get_server_endpoint (config.rs lines 69-82): none when telemetry
is opted out via INFRAIQ_TELEMETRY, otherwise the WRAITH_SERVER_URL value or
the default endpoint. -/
def get_server_endpoint (env : Env) : Option String :=
  let disabled :=
    match env.infraiq_telemetry with
    | some v => rustToLowercase v == "false" || v == "0"
    | none => false
  if disabled then none
  else some (env.wraith_server_url.getD DEFAULT_SERVER_ENDPOINT)

/-- config::is_telemetry_enabled (config.rs lines 85-90). -/
def is_telemetry_enabled (env : Env) : Bool :=
  match env.infraiq_telemetry with
  | some v => !(rustToLowercase v == "false" || v == "0")
  | none => true

/-- The three writer shapes of writer.rs, as the choice main could hand to
the buffer manager. -/
inductive WriterChoice where
  | file (path : String)
  | http (endpoint : String)
  | fallbackOf (endpoint : Option String) (path : String)
deriving DecidableEq, Repr

/-- Writer construction in main (main.rs line 222): FileWriter::new(log_path),
unconditionally; main never consults get_server_endpoint or the
environment. -/
def mainCreateWriter (log_path : String) : WriterChoice :=
  .file log_path

/-- Modelled from the spec: the writer selection the specification describes,
in which the environment-driven endpoint and opt-out choose between the
HTTP-capable fallback writer and the plain file writer. This definition
follows the spec words, for comparison against mainCreateWriter, which is
taken from the source. -/
def specSelectWriter (env : Env) (log_path : String) : WriterChoice :=
  match get_server_endpoint env with
  | some endpoint => .fallbackOf (some endpoint) log_path
  | none => .file log_path

/-- C4: with telemetry enabled and an endpoint configured in the environment,
get_server_endpoint selects that endpoint and the opt-out variable selects
none, yet the writer main constructs and hands to the buffer manager is the
file writer regardless, differing from the configuration-driven selection the
specification describes. -/
theorem main_writer_ignores_endpoint_configuration :
    get_server_endpoint { infraiq_telemetry := none,
                          wraith_server_url := some "http://localhost:9999/events" } =
      some "http://localhost:9999/events" ∧
    get_server_endpoint { infraiq_telemetry := some "false",
                          wraith_server_url := some "http://localhost:9999/events" } =
      none ∧
    mainCreateWriter "events.log" = .file "events.log" ∧
    mainCreateWriter "events.log" ≠
      specSelectWriter { infraiq_telemetry := none,
                         wraith_server_url := some "http://localhost:9999/events" }
        "events.log" := by
  refine ⟨rfl, by decide, rfl, by decide⟩

end Wraith

namespace Wraith

/-! Startup behaviour of main, from wraith-daemon/src/main.rs and
wraith-daemon/src/socket.rs. Home-directory discovery, CLI path overrides and
the socket bind are oracles; the outcome distinguishes a non-zero process
exit (an expect panic in main) from a running daemon whose listener task may
have failed. -/

/-- config::get_infraiq_dir (config.rs lines 34-36), with the home directory
as an explicit Option argument. -/
def get_infraiq_dir (home : Option String) : Option String :=
  home.map (fun h => h ++ "/" ++ INFRAIQ_DIR)

/-- config::get_socket_path (config.rs lines 39-41). -/
def get_socket_path (home : Option String) : Option String :=
  (get_infraiq_dir home).map (fun d => d ++ "/" ++ SOCKET_NAME)

/-- config::get_events_log_path (config.rs lines 44-46). -/
def get_events_log_path (home : Option String) : Option String :=
  (get_infraiq_dir home).map (fun d => d ++ "/" ++ EVENTS_LOG)

/-- config::get_install_id_path (config.rs lines 49-51). -/
def get_install_id_path (home : Option String) : Option String :=
  (get_infraiq_dir home).map (fun d => d ++ "/" ++ INSTALL_ID_FILE)

/-- Outcome of daemon startup: a non-zero exit before any work, or a running
main loop whose listener task is up or has failed. -/
inductive StartupOutcome where
  | exitNonZero
  | running (listener_up : Bool)
deriving DecidableEq, Repr

/-- Startup sequence of main (main.rs lines 209-257): resolve the socket and
log paths (expect panics exit non-zero when the home directory is absent and
no override is given), resolve the installation-id path inside
create_daemon_context (expect panics likewise), then spawn the socket
listener task; a bind failure in run_socket_listener (socket.rs line 28) is
only logged by the spawned task (main.rs lines 252-256) and the main loop
keeps running. -/
def mainStartup (socket_override log_override : Option String)
    (home : Option String) (bind_ok : Bool) : StartupOutcome :=
  match socket_override.orElse (fun _ => get_socket_path home) with
  | none => .exitNonZero
  | some _ =>
    match log_override.orElse (fun _ => get_events_log_path home) with
    | none => .exitNonZero
    | some _ =>
      match get_install_id_path home with
      | none => .exitNonZero
      | some _ => .running bind_ok

/-- C8 counterexample: with a home directory present but the socket bind
failing, the process does not exit; it keeps running with the listener task
failed, contradicting the claim that a bind failure exits non-zero before
accepting work. -/
theorem bind_failure_does_not_exit_process :
    mainStartup none none (some "/home/user") false = .running false ∧
    mainStartup none none (some "/home/user") false ≠ .exitNonZero := by
  exact ⟨rfl, by decide⟩

/-- C8 amended: when the home directory cannot be determined (and no path
overrides are given) the process exits non-zero before accepting any work,
and the installation-id path makes home mandatory even when both overrides
are given; but a socket bind failure is only logged by the listener task and
the process keeps running without accepting connections. -/
theorem startup_failure_outcomes (socket_override log_override : Option String)
    (home_dir : String) (bind_ok : Bool) :
    mainStartup none none none bind_ok = .exitNonZero ∧
    mainStartup socket_override log_override none bind_ok = .exitNonZero ∧
    mainStartup none none (some home_dir) false = .running false ∧
    mainStartup none none (some home_dir) true = .running true := by
  refine ⟨rfl, ?_, rfl, rfl⟩
  cases socket_override <;> cases log_override <;> rfl

end Wraith

namespace Wraith

/-! Installation identifier, from wraith-daemon/src/main.rs lines 149-174.
The file read is an Option String (none when the read fails or the file is
absent), the UUID generator is an explicit fresh value, and the file write is
an oracle Bool. -/

/-- Result of get_or_create_installation_id: the id returned for this run,
whether a write of a fresh id was attempted, and whether the returned id is
stored on disk after the call. -/
structure InstallIdResult where
  id : String
  attempted_write : Bool
  persisted : Bool
deriving DecidableEq, Repr

/-- Model of Rust char::is_whitespace restricted to the ASCII whitespace
characters, which covers the whitespace forms at issue in the id file. -/
def rustIsWhitespace (c : Char) : Bool :=
  c == ' ' || c == '\t' || c == '\n' || c == '\r'

/-- Model of Rust str::trim: drop whitespace from both ends. -/
def rustTrim (s : String) : String :=
  String.mk (((s.data.dropWhile rustIsWhitespace).reverse.dropWhile
    rustIsWhitespace).reverse)

/-- get_or_create_installation_id (main.rs lines 149-174): read the id file;
if the trimmed contents are non-empty return them; otherwise generate a fresh
UUID, attempt to write it (a failed write is only logged), and return the
fresh id either way. -/
def get_or_create_installation_id (file : Option String) (freshUuid : String)
    (write_ok : Bool) : InstallIdResult :=
  match file with
  | some contents =>
    let id := rustTrim contents
    if !id.data.isEmpty then
      { id := id, attempted_write := false, persisted := true }
    else
      { id := freshUuid, attempted_write := true, persisted := write_ok }
  | none =>
    { id := freshUuid, attempted_write := true, persisted := write_ok }

/-- C10: a file whose contents trim to empty behaves exactly like an absent
file: a fresh UUID is generated and a write attempted; and when the write
fails the fresh UUID is still returned for the current run, just not
persisted. -/
theorem install_id_blank_file_like_absent (contents freshUuid : String)
    (write_ok : Bool) (h : (rustTrim contents).data.isEmpty = true) :
    get_or_create_installation_id (some contents) freshUuid write_ok =
      get_or_create_installation_id none freshUuid write_ok ∧
    get_or_create_installation_id (some contents) freshUuid write_ok =
      { id := freshUuid, attempted_write := true, persisted := write_ok } ∧
    (get_or_create_installation_id (some contents) freshUuid false).id = freshUuid ∧
    (get_or_create_installation_id (some contents) freshUuid false).persisted = false := by
  refine ⟨?_, ?_, ?_, ?_⟩ <;>
    simp [get_or_create_installation_id, h]

/-- Witness for install_id_blank_file_like_absent on a whitespace-only file. -/
theorem install_id_blank_file_like_absent_witness :
    ((rustTrim "  \n ").data.isEmpty = true) ∧
    get_or_create_installation_id (some "  \n ") "uuid-fresh-1" true =
      get_or_create_installation_id none "uuid-fresh-1" true :=
  ⟨by decide, (install_id_blank_file_like_absent "  \n " "uuid-fresh-1" true (by decide)).1⟩

end Wraith

namespace Wraith

/-! Per-connection handler, from wraith-daemon/src/socket.rs lines 49-79.
The serde_json line parse is a parameter (an external crate call), the
command channel send is a Bool oracle per event (false when the manager is
gone), and the id and timestamp assigned at admission come from oracles
indexed by the number of admissions so far. Rust String::is_empty is
modelled on the character list of the line. -/

/-- Observable outcome of handle_client on a list of received lines: the
events admitted (sent as Push commands) in order, the number of logged parse
failures, and whether the loop was terminated early by a channel-send
failure. EOF with send_failed false means the connection stayed open to the
end of the stream. -/
structure ConnResult where
  admitted : List Event
  parse_failures : Nat
  send_failed : Bool
deriving DecidableEq, Repr

/-- handle_client (socket.rs lines 49-79): skip empty lines; a line that
parses is promoted via into_event with a fresh id and the admission-time
instant and sent as a Push command, a send failure breaking the loop; a line
that does not parse is counted as a logged failure and the loop continues. -/
def handle_client (parse : String → Option ClientMessage) (send : Event → Bool)
    (ids : Nat → String) (clock : Nat → Nat) :
    List String → Nat → ConnResult
  | [], _ => { admitted := [], parse_failures := 0, send_failed := false }
  | line :: rest, k =>
    if line.data.isEmpty then
      handle_client parse send ids clock rest k
    else
      match parse line with
      | some msg =>
        let event := msg.into_event (ids k) (clock k)
        if send event then
          let r := handle_client parse send ids clock rest (k + 1)
          { r with admitted := event :: r.admitted }
        else
          { admitted := [], parse_failures := 0, send_failed := true }
      | none =>
        let r := handle_client parse send ids clock rest k
        { r with parse_failures := r.parse_failures + 1 }

/-- The identity-free part of an event, for comparing admitted events with
the parsed messages they came from. -/
def Event.core (e : Event) : Level × EventType × EventContext :=
  (e.level, e.event, e.context)

/-- With a working channel, handle_client admits exactly the non-empty lines
that parse, in order and with their parsed contents, counts one failure per
non-empty line that does not parse, and never terminates early. -/
theorem handle_client_channel_ok (parse : String → Option ClientMessage)
    (ids : Nat → String) (clock : Nat → Nat) (lines : List String) (k : Nat) :
    ((handle_client parse (fun _ => true) ids clock lines k).admitted.map Event.core =
      (lines.filterMap (fun l => if l.data.isEmpty then none else parse l)).map
        (fun m => (m.level, m.event, m.context))) ∧
    ((handle_client parse (fun _ => true) ids clock lines k).parse_failures =
      (lines.filter (fun l => !l.data.isEmpty && (parse l).isNone)).length) ∧
    ((handle_client parse (fun _ => true) ids clock lines k).send_failed = false) := by
  induction lines generalizing k with
  | nil => simp [handle_client]
  | cons l rest ih =>
    by_cases hempty : l.data = []
    · simpa [handle_client, hempty] using ih k
    · cases hp : parse l with
      | some msg =>
        have h := ih (k + 1)
        simp [handle_client, hempty, hp, h.1, h.2.1, h.2.2, Event.core,
          ClientMessage.into_event, Event.new]
      | none =>
        have h := ih k
        simp [handle_client, hempty, hp, h.1, h.2.1, h.2.2]

/-- The first of the two valid scenario lines. -/
def scenarioLine1 : String :=
  "\x7b\"level\":\"INFO\",\"event_type\":\"tool_invoked\",\"tool\":\"x\",\"command\":\"y\"\x7d"

/-- The malformed scenario line. -/
def scenarioLine2 : String := "not json"

/-- The second valid scenario line. -/
def scenarioLine3 : String :=
  "\x7b\"level\":\"INFO\",\"event_type\":\"tool_invoked\",\"tool\":\"x\",\"command\":\"z\"\x7d"

/-- The message carried by the first valid scenario line. -/
def scenarioMsg1 : ClientMessage :=
  { level := .info, event := .toolInvoked "x" "y", context := sampleContext }

/-- The message carried by the second valid scenario line. -/
def scenarioMsg2 : ClientMessage :=
  { level := .info, event := .toolInvoked "x" "z", context := sampleContext }

/-- The serde_json parse outcome on the three scenario lines. -/
def scenarioParse (l : String) : Option ClientMessage :=
  if l = scenarioLine1 then some scenarioMsg1
  else if l = scenarioLine3 then some scenarioMsg2
  else none

/-- Admission ids for the scenario. -/
def scenarioIds (n : Nat) : String := Nat.repr n

/-- Admission instants for the scenario. -/
def scenarioClock (n : Nat) : Nat := 100 + n

/-- C6: the handler skips empty lines, admits each parsing line as a full
Event with freshly assigned id and timestamp, logs a failure for each
non-empty non-parsing line while keeping the connection open, and stops only
on a channel-send failure; on the scenario valid line, malformed line, valid
line, exactly two events are admitted and one parse failure logged with the
connection open throughout, while a dead channel terminates the loop at the
first admission. -/
theorem handle_client_skips_bad_lines (parse : String → Option ClientMessage)
    (ids : Nat → String) (clock : Nat → Nat) (lines : List String) :
    ((handle_client parse (fun _ => true) ids clock lines 0).admitted.map Event.core =
      (lines.filterMap (fun l => if l.data.isEmpty then none else parse l)).map
        (fun m => (m.level, m.event, m.context))) ∧
    ((handle_client parse (fun _ => true) ids clock lines 0).parse_failures =
      (lines.filter (fun l => !l.data.isEmpty && (parse l).isNone)).length) ∧
    ((handle_client parse (fun _ => true) ids clock lines 0).send_failed = false) ∧
    (handle_client scenarioParse (fun _ => true) scenarioIds scenarioClock
        [scenarioLine1, scenarioLine2, scenarioLine3] 0 =
      { admitted := [scenarioMsg1.into_event "0" 100, scenarioMsg2.into_event "1" 101]
        parse_failures := 1
        send_failed := false }) ∧
    (handle_client scenarioParse (fun _ => false) scenarioIds scenarioClock
        [scenarioLine1, scenarioLine2, scenarioLine3] 0 =
      { admitted := [], parse_failures := 0, send_failed := true }) := by
  have h := handle_client_channel_ok parse ids clock lines 0
  exact ⟨h.1, h.2.1, h.2.2, by decide, by decide⟩

end Wraith

namespace Wraith

/-! Wire JSON format, from the serde derive attributes in
wraith-common/src/lib.rs: Event and ClientMessage serialize to one JSON
object in which the event type is flattened under the tag field event_type
(snake_case), the level is an UPPERCASE string, optional fields are omitted
when absent, and unknown fields are ignored on deserialization (the serde
default), which is what lets an Event JSON parse as a ClientMessage. JSON
values are modelled structurally; the chrono timestamp serializes as a
string. -/

/-- Structural JSON values, as far as the wire format needs them. -/
inductive Json where
  | str (s : String)
  | num (n : Nat)
  | obj (fields : List (String × Json))

/-- First field with the given key in a JSON object body (serde reads the
first occurrence). -/
def getField : List (String × Json) → String → Option Json
  | [], _ => none
  | (k, v) :: rest, key => if k = key then some v else getField rest key

/-- String content of a JSON value. -/
def Json.asStr : Json → Option String
  | .str s => some s
  | _ => none

/-- Numeric content of a JSON value. -/
def Json.asNat : Json → Option Nat
  | .num n => some n
  | _ => none

/-- String field lookup. -/
def getStr (fs : List (String × Json)) (key : String) : Option String :=
  (getField fs key).bind Json.asStr

/-- Numeric field lookup. -/
def getNat (fs : List (String × Json)) (key : String) : Option Nat :=
  (getField fs key).bind Json.asNat

/-- Level deserialization (serde rename_all UPPERCASE on enum Level). -/
def levelFromWire (s : String) : Option Level :=
  if s = "DEBUG" then some .debug
  else if s = "INFO" then some .info
  else if s = "WARNING" then some .warning
  else if s = "ERROR" then some .error
  else if s = "CRITICAL" then some .critical
  else if s = "FATAL" then some .fatal
  else none

/-- EventType serialization (serde tag event_type, rename_all snake_case,
skip_serializing_if on the optional fields): the fields contributed to the
enclosing flattened object. -/
def EventType.wireFields : EventType → List (String × Json)
  | .toolInvoked tool command =>
    [("event_type", .str "tool_invoked"), ("tool", .str tool),
     ("command", .str command)]
  | .toolSucceeded tool command duration_ms =>
    [("event_type", .str "tool_succeeded"), ("tool", .str tool),
     ("command", .str command), ("duration_ms", .num duration_ms)]
  | .toolFailed tool command error_type duration_ms =>
    [("event_type", .str "tool_failed"), ("tool", .str tool),
     ("command", .str command), ("error_type", .str error_type),
     ("duration_ms", .num duration_ms)]
  | .exceptionUnhandled tool exception_type traceback =>
    [("event_type", .str "exception_unhandled"), ("tool", .str tool),
     ("exception_type", .str exception_type)] ++
    (match traceback with
     | some t => [("traceback", .str t)]
     | none => [])
  | .validationFailed tool validation_type details =>
    [("event_type", .str "validation_failed"), ("tool", .str tool),
     ("validation_type", .str validation_type)] ++
    (match details with
     | some d => [("details", .str d)]
     | none => [])
  | .daemonStarted parent_pid =>
    [("event_type", .str "daemon_started"), ("parent_pid", .num parent_pid)]
  | .daemonStopping reason =>
    [("event_type", .str "daemon_stopping"), ("reason", .str reason)]

/-- EventType deserialization from the enclosing flattened object: dispatch
on the event_type tag, read the fields of that variant, with the optional
fields genuinely optional. -/
def EventType.fromWire (fs : List (String × Json)) : Option EventType :=
  match getStr fs "event_type" with
  | none => none
  | some tag =>
    if tag = "tool_invoked" then
      match getStr fs "tool", getStr fs "command" with
      | some t, some c => some (.toolInvoked t c)
      | _, _ => none
    else if tag = "tool_succeeded" then
      match getStr fs "tool", getStr fs "command", getNat fs "duration_ms" with
      | some t, some c, some d => some (.toolSucceeded t c d)
      | _, _, _ => none
    else if tag = "tool_failed" then
      match getStr fs "tool", getStr fs "command", getStr fs "error_type",
          getNat fs "duration_ms" with
      | some t, some c, some et, some d => some (.toolFailed t c et d)
      | _, _, _, _ => none
    else if tag = "exception_unhandled" then
      match getStr fs "tool", getStr fs "exception_type" with
      | some t, some ex => some (.exceptionUnhandled t ex (getStr fs "traceback"))
      | _, _ => none
    else if tag = "validation_failed" then
      match getStr fs "tool", getStr fs "validation_type" with
      | some t, some vt => some (.validationFailed t vt (getStr fs "details"))
      | _, _ => none
    else if tag = "daemon_started" then
      match getNat fs "parent_pid" with
      | some pid => some (.daemonStarted pid)
      | none => none
    else if tag = "daemon_stopping" then
      match getStr fs "reason" with
      | some r => some (.daemonStopping r)
      | none => none
    else none

/-- EventContext serialization (os_version omitted when absent). -/
def EventContext.toJson (c : EventContext) : Json :=
  .obj ([("installation_id", .str c.installation_id),
         ("tool_version", .str c.tool_version),
         ("python_version", .str c.python_version),
         ("os", .str c.os)] ++
        (match c.os_version with
         | some v => [("os_version", .str v)]
         | none => []))

/-- EventContext deserialization. -/
def EventContext.fromJson (j : Json) : Option EventContext :=
  match j with
  | .obj fs =>
    match getStr fs "installation_id", getStr fs "tool_version",
        getStr fs "python_version", getStr fs "os" with
    | some i, some tv, some pv, some os =>
      some { installation_id := i, tool_version := tv, python_version := pv,
             os := os, os_version := getStr fs "os_version" }
    | _, _, _, _ => none
  | _ => none

/-- Event serialization to the wire JSON object: id, timestamp, level, the
flattened event fields, then context. -/
def Event.toJson (e : Event) : Json :=
  .obj ([("id", .str e.id),
         ("timestamp", .str (Nat.repr e.timestamp)),
         ("level", .str e.level.as_str)] ++
        e.event.wireFields ++
        [("context", e.context.toJson)])

/-- ClientMessage deserialization, ignoring fields it does not know, id and
timestamp among them. -/
def ClientMessage.fromJson (j : Json) : Option ClientMessage :=
  match j with
  | .obj fs =>
    match (getStr fs "level").bind levelFromWire, EventType.fromWire fs,
        (getField fs "context").bind EventContext.fromJson with
    | some lv, some ev, some cx => some { level := lv, event := ev, context := cx }
    | _, _, _ => none
  | _ => none

theorem levelFromWire_as_str (l : Level) : levelFromWire l.as_str = some l := by
  cases l <;> rfl

set_option maxHeartbeats 2000000 in
/-- C7: serializing any Event to the wire JSON object and parsing it back as
a ClientMessage recovers exactly the original level, event type with all its
fields, and context; promoting that message with into_event yields an Event
agreeing with the original everywhere except id and timestamp, which take
the freshly assigned values. -/
theorem wire_roundtrip_preserves_all_but_identity (e : Event) (newId : String)
    (newTs : Nat) :
    ClientMessage.fromJson e.toJson =
      some { level := e.level, event := e.event, context := e.context } ∧
    (({ level := e.level, event := e.event, context := e.context } :
        ClientMessage).into_event newId newTs) =
      { id := newId, timestamp := newTs, level := e.level, event := e.event,
        context := e.context } := by
  refine ⟨?_, rfl⟩
  obtain ⟨id, ts, lv, ev, cx⟩ := e
  obtain ⟨ci, ctv, cpv, cos, cosv⟩ := cx
  cases ev with
  | exceptionUnhandled t ex tb =>
    cases tb <;> cases cosv <;>
      simp [Event.toJson, ClientMessage.fromJson, EventType.wireFields,
        EventType.fromWire, EventContext.toJson, EventContext.fromJson,
        getStr, getNat, getField, Json.asStr, Json.asNat, levelFromWire_as_str]
  | validationFailed t vt dt =>
    cases dt <;> cases cosv <;>
      simp [Event.toJson, ClientMessage.fromJson, EventType.wireFields,
        EventType.fromWire, EventContext.toJson, EventContext.fromJson,
        getStr, getNat, getField, Json.asStr, Json.asNat, levelFromWire_as_str]
  | toolInvoked t c =>
    cases cosv <;>
      simp [Event.toJson, ClientMessage.fromJson, EventType.wireFields,
        EventType.fromWire, EventContext.toJson, EventContext.fromJson,
        getStr, getNat, getField, Json.asStr, Json.asNat, levelFromWire_as_str]
  | toolSucceeded t c d =>
    cases cosv <;>
      simp [Event.toJson, ClientMessage.fromJson, EventType.wireFields,
        EventType.fromWire, EventContext.toJson, EventContext.fromJson,
        getStr, getNat, getField, Json.asStr, Json.asNat, levelFromWire_as_str]
  | toolFailed t c et d =>
    cases cosv <;>
      simp [Event.toJson, ClientMessage.fromJson, EventType.wireFields,
        EventType.fromWire, EventContext.toJson, EventContext.fromJson,
        getStr, getNat, getField, Json.asStr, Json.asNat, levelFromWire_as_str]
  | daemonStarted pid =>
    cases cosv <;>
      simp [Event.toJson, ClientMessage.fromJson, EventType.wireFields,
        EventType.fromWire, EventContext.toJson, EventContext.fromJson,
        getStr, getNat, getField, Json.asStr, Json.asNat, levelFromWire_as_str]
  | daemonStopping r =>
    cases cosv <;>
      simp [Event.toJson, ClientMessage.fromJson, EventType.wireFields,
        EventType.fromWire, EventContext.toJson, EventContext.fromJson,
        getStr, getNat, getField, Json.asStr, Json.asNat, levelFromWire_as_str]

end Wraith
